import Mathlib

/-!
Verification of the search-request pipeline of the websurfx meta search
engine, as implemented by the `search` route handler in
`src/server/routes.rs`.

The handler is shallowly embedded as a pure Lean function.  External
collaborators (the redis cache client, the serde (de)serializers, the
upstream-engine aggregator and the handlebars renderer) are parameters of
the embedding, gathered in an `Env` record of fallible oracles; the
orchestration logic itself — parameter deserialization, pagination
normalization, cache-key construction, cache hit/miss branching, engine
selection, result enrichment and cache population — is translated from the
source line by line.  Every externally observable action of a run is
recorded in an ordered trace of `Event`s, so that claims about which
collaborators are invoked, and in which order, become statements about the
trace.
-/

deriving instance DecidableEq for Except

namespace Websurfx

/-- The deserialized search url parameters, mirroring `struct SearchParams`
in `src/server/routes.rs` (`q : Option<String>`, `page : Option<u32>`).
A Rust `u32` is embedded as a `Nat` known to be below `2 ^ 32`. -/
structure SearchParams where
  q : Option String
  page : Option Nat
  deriving DecidableEq, Repr

/-- The deserialized client cookie, mirroring `struct Cookie` in
`src/server/routes.rs`. -/
structure Cookie where
  theme : String
  colorscheme : String
  engines : List String
  deriving DecidableEq, Repr

/-- The configuration fields of `Config` that the `search` handler reads:
`binding_ip_addr`, `port`, `redis_connection_url`,
`upstream_search_engines`, `style`, `aggregator.random_delay` and `debug`.
The style is kept abstract as a string. -/
structure Config where
  binding_ip_addr : String
  port : Nat
  redis_connection_url : String
  upstream_search_engines : List String
  style : String
  random_delay : Bool
  debug : Bool
  deriving DecidableEq, Repr

/-- Modelled from the spec: the repository file defining `SearchResults`
(`search_results_handler/aggregation_models.rs`) is not part of the given
sources, so the `SearchResultSet` data model of the spec is used:
a sequence of results, optional presentation style metadata, and an
empty-result flag. -/
structure SearchResults where
  results : List String
  style : Option String
  empty_result_set : Bool
  deriving DecidableEq, Repr

/-- Modelled from the spec: `SearchResults::add_style` attaches the
presentation style metadata to a result set. -/
def SearchResults.add_style (r : SearchResults) (s : String) : SearchResults :=
  { r with style := some s }

/-- Modelled from the spec: `SearchResults::is_empty_result_set` checks the
empty-result condition from the result sequence's length. -/
def SearchResults.is_empty_result_set (r : SearchResults) : Bool :=
  r.results.isEmpty

/-- Modelled from the spec: `SearchResults::set_empty_result_set` sets the
flag consumed by rendering to show an empty-results state. -/
def SearchResults.set_empty_result_set (r : SearchResults) : SearchResults :=
  { r with empty_result_set := true }

/-- The responses the `search` handler can produce: a `302 Found` redirect
with a location header, or a `200 Ok` with a rendered body. -/
inductive Response where
  | found : String → Response
  | okBody : String → Response
  deriving DecidableEq, Repr

/-- The externally observable actions of one run of the `search` handler,
in order of occurrence: construction of the redis cache client
(`RedisCache::new`), a cache lookup (`cached_results_json`), an aggregator
invocation (`aggregate`, recording the engine list handed over), the result
enrichment (`add_style` / empty-result flagging), a cache write
(`cache_results`), and a render (`hbs.render`). -/
inductive Event where
  | cacheConnect : Event
  | cacheGet : String → Event
  | aggregatorCall : List String → Event
  | enrich : Event
  | cacheSet : String → Event
  | render : Event
  deriving DecidableEq, Repr

/-- Whether an event is the enrichment step. -/
def isEnrich : Event → Bool
  | Event.enrich => true
  | _ => false

/-- The fallible external collaborators of the handler, as oracles:
`cacheNew` is the outcome of `RedisCache::new`, `cached_results_json` the
keyed cache lookup, `parseResults` the serde deserialization of a cached
payload, `parseCookie` the serde deserialization of the `appCookie` value,
`aggregate` the upstream aggregator (query, page, random_delay, debug,
engines), `serialize` the serde serialization of a result set,
`cache_results` the keyed cache write (value, key), and `render` the
handlebars template renderer (template name, data). -/
structure Env where
  cacheNew : Except String Unit
  cached_results_json : String → Except String String
  parseResults : String → Except String SearchResults
  parseCookie : String → Except String Cookie
  aggregate : String → Nat → Bool → Bool → List String → Except String SearchResults
  serialize : SearchResults → Except String String
  cache_results : String → String → Except String Unit
  render : String → SearchResults → Except String String

/-- One incoming request: the rendering of `req.uri()` (path plus query
string), the parsed query-string key/value pairs handed to
`web::Query::from_query`, and the value of the `appCookie` cookie when
present. -/
structure Request where
  uri : String
  queryPairs : List (String × String)
  cookie : Option String
  deriving DecidableEq, Repr

/-- Parse of one `page` value as a Rust `u32`: a non-empty string of
decimal digits denoting a value below `2 ^ 32`, read by structural
recursion over the characters. -/
def parseU32 (s : String) : Option Nat :=
  if !s.data.isEmpty && s.data.all Char.isDigit then
    let n := s.data.foldl (fun acc c => acc * 10 + (c.toNat - 48)) 0
    if n < 2 ^ 32 then some n else none
  else none

/-- Modelled from the spec: the actix/serde deserialization of
`SearchParams` from the query string (`web::Query::from_query`, line 89) is
library code outside the given sources.  Per the spec's inbound interface,
`q` is an optional string and `page` an optional non-negative integer
(`u32`); a `page` value that does not parse as such fails deserialization,
and unknown parameters are ignored. -/
def parseSearchParams (pairs : List (String × String)) : Except String SearchParams :=
  match List.lookup "page" pairs with
  | none => Except.ok { q := List.lookup "q" pairs, page := none }
  | some s =>
    match parseU32 s with
    | some n => Except.ok { q := List.lookup "q" pairs, page := some n }
    | none => Except.error "invalid page parameter"

/-- The pagination normalization of the `search` handler
(`src/server/routes.rs` lines 104-132): derives the effective page number
and the cache key `page_url` from the declared page, the query and the raw
request uri, mirroring the three `format!` calls of the source. -/
def pageAndUrl (cfg : Config) (query : String) (page : Option Nat) (uri : String) :
    Nat × String :=
  match page with
  | some page_number =>
    if page_number ≤ 1 then
      (1, "http://" ++ cfg.binding_ip_addr ++ ":" ++ toString cfg.port ++
        "/search?q=" ++ query ++ "&page=" ++ toString 1)
    else
      (page_number, "http://" ++ cfg.binding_ip_addr ++ ":" ++ toString cfg.port ++
        "/search?q=" ++ query ++ "&page=" ++ toString page_number)
  | none =>
    (1, "http://" ++ cfg.binding_ip_addr ++ ":" ++ toString cfg.port ++
      uri ++ "&page=" ++ toString 1)

/-- The enrichment performed on the cache-miss path
(`src/server/routes.rs` lines 156-162): attach the configured style, then
set the empty-result flag when the result sequence is empty. -/
def enrichStep (cfg : Config) (r : SearchResults) : SearchResults :=
  let r := r.add_style cfg.style
  if r.is_empty_result_set then r.set_empty_result_set else r

/-- The engine selection plus aggregator invocation of the cache-miss path
(`src/server/routes.rs` lines 149-155): a present `appCookie` is
deserialized (failure propagates) and its `engines` list handed to
`aggregate`; an absent cookie uses `config.upstream_search_engines`
verbatim. -/
def aggregateStep (cfg : Config) (env : Env) (cookie : Option String)
    (query : String) (page : Nat) : Except String SearchResults × List Event :=
  match cookie with
  | some cookie_value =>
    match env.parseCookie cookie_value with
    | Except.error e => (Except.error e, [])
    | Except.ok c =>
      (env.aggregate query page cfg.random_delay cfg.debug c.engines,
        [Event.aggregatorCall c.engines])
  | none =>
    (env.aggregate query page cfg.random_delay cfg.debug cfg.upstream_search_engines,
      [Event.aggregatorCall cfg.upstream_search_engines])

/-- The cache-miss branch of the `search` handler
(`src/server/routes.rs` lines 144-167): engine selection and aggregation,
enrichment, serialization, cache write, then render.  Any failure
propagates and aborts the remainder. -/
def missPath (cfg : Config) (env : Env) (cookie : Option String) (query : String)
    (page : Nat) (page_url : String) : Except String Response × List Event :=
  match aggregateStep cfg env cookie query page with
  | (Except.error e, tr) => (Except.error e, tr)
  | (Except.ok results0, tr) =>
    let results := enrichStep cfg results0
    match env.serialize results with
    | Except.error e => (Except.error e, tr ++ [Event.enrich])
    | Except.ok serialized =>
      match env.cache_results serialized page_url with
      | Except.error e => (Except.error e, tr ++ [Event.enrich, Event.cacheSet page_url])
      | Except.ok _ =>
        match env.render "search" results with
        | Except.error e =>
          (Except.error e, tr ++ [Event.enrich, Event.cacheSet page_url, Event.render])
        | Except.ok body =>
          (Except.ok (Response.okBody body),
            tr ++ [Event.enrich, Event.cacheSet page_url, Event.render])

/-- The cache-hit branch of the `search` handler
(`src/server/routes.rs` lines 139-143): the cached payload is deserialized
into a result set and rendered as-is. -/
def hitPath (env : Env) (results_json : String) : Except String Response × List Event :=
  match env.parseResults results_json with
  | Except.error e => (Except.error e, [])
  | Except.ok new_results_json =>
    match env.render "search" new_results_json with
    | Except.error e => (Except.error e, [Event.render])
    | Except.ok body => (Except.ok (Response.okBody body), [Event.render])

/-- The emptiness test `query.trim().is_empty()` of the source (line 95):
`str::trim` drops leading and trailing whitespace, so the trimmed string is
empty exactly when every character of the string is whitespace.  It is
embedded in that form, which evaluates by structural recursion. -/
def trimIsEmpty (s : String) : Bool :=
  s.data.all Char.isWhitespace

/-- The `search` route handler (`src/server/routes.rs` lines 84-175):
deserialize the url parameters (line 89), construct the redis cache client
(line 92), then branch on the query: an absent or trim-empty `q` redirects
to `/`; otherwise the pagination is normalized, the cache is consulted at
the derived key, and exactly one of `hitPath` and `missPath` runs. -/
def search (cfg : Config) (env : Env) (req : Request) :
    Except String Response × List Event :=
  match parseSearchParams req.queryPairs with
  | Except.error e => (Except.error e, [])
  | Except.ok params =>
    match env.cacheNew with
    | Except.error e => (Except.error e, [Event.cacheConnect])
    | Except.ok _ =>
      match params.q with
      | some query =>
        if trimIsEmpty query then
          (Except.ok (Response.found "/"), [Event.cacheConnect])
        else
          match env.cached_results_json (pageAndUrl cfg query params.page req.uri).2 with
          | Except.ok results_json =>
            ((hitPath env results_json).1,
              [Event.cacheConnect,
                Event.cacheGet (pageAndUrl cfg query params.page req.uri).2] ++
                (hitPath env results_json).2)
          | Except.error _ =>
            ((missPath cfg env req.cookie query (pageAndUrl cfg query params.page req.uri).1
                (pageAndUrl cfg query params.page req.uri).2).1,
              [Event.cacheConnect,
                Event.cacheGet (pageAndUrl cfg query params.page req.uri).2] ++
                (missPath cfg env req.cookie query (pageAndUrl cfg query params.page req.uri).1
                  (pageAndUrl cfg query params.page req.uri).2).2)
      | none => (Except.ok (Response.found "/"), [Event.cacheConnect])

/-! Concrete fixtures used to exercise the handler on closed inputs. -/

/-- A sample configuration: the address and port of the spec's scenario,
with default engines `engineA` and `engineB`. -/
def cfg0 : Config :=
  { binding_ip_addr := "127.0.0.1"
    port := 8080
    redis_connection_url := "redis://127.0.0.1:8082"
    upstream_search_engines := ["engineA", "engineB"]
    style := "simple"
    random_delay := false
    debug := false }

/-- A sample non-empty result set. -/
def okResults : SearchResults :=
  { results := ["r1"], style := none, empty_result_set := false }

/-- A well-formed cookie payload selecting the single engine `engineC`. -/
def engineCCookie : Cookie :=
  { theme := "t", colorscheme := "c", engines := ["engineC"] }

/-- An environment in which every collaborator succeeds except the cache
lookup, which always misses. -/
def envMiss : Env :=
  { cacheNew := Except.ok ()
    cached_results_json := fun _ => Except.error "not found"
    parseResults := fun _ => Except.ok okResults
    parseCookie := fun _ => Except.ok engineCCookie
    aggregate := fun _ _ _ _ _ => Except.ok okResults
    serialize := fun _ => Except.ok "serialized"
    cache_results := fun _ _ => Except.ok ()
    render := fun _ _ => Except.ok "page" }

/-- As `envMiss`, but the cache lookup always hits with a fixed payload. -/
def envHit : Env :=
  { envMiss with cached_results_json := fun _ => Except.ok "cachedjson" }

/-- As `envMiss`, but constructing the cache client fails. -/
def envConnFail : Env :=
  { envMiss with cacheNew := Except.error "connection refused" }

/-- As `envMiss`, but the cache write fails. -/
def envSetFail : Env :=
  { envMiss with cache_results := fun _ _ => Except.error "set failed" }

/-- As `envMiss`, but the cookie does not deserialize. -/
def envBadCookie : Env :=
  { envMiss with parseCookie := fun _ => Except.error "malformed cookie" }

/-- A well-formed cookie payload whose `engines` list is empty. -/
def emptyEnginesCookie : Cookie :=
  { theme := "t", colorscheme := "c", engines := [] }

/-- As `envMiss`, but the cookie deserializes to a payload whose `engines`
list is empty. -/
def envEmptyEngines : Env :=
  { envMiss with parseCookie := fun _ => Except.ok emptyEnginesCookie }

/-- A request whose `q` parameter is the empty string. -/
def reqEmptyQ : Request :=
  { uri := "/search?q=", queryPairs := [("q", "")], cookie := none }

/-- The spec's scenario request: `q=sweden`, no page, no cookie. -/
def reqSweden : Request :=
  { uri := "/search?q=sweden", queryPairs := [("q", "sweden")], cookie := none }

/-- As `reqSweden`, but with a declared `page=0`. -/
def reqSwedenPage0 : Request :=
  { uri := "/search?q=sweden&page=0"
    queryPairs := [("q", "sweden"), ("page", "0")]
    cookie := none }

/-- As `reqSweden`, but carrying an `appCookie` value. -/
def reqSwedenCookie : Request :=
  { uri := "/search?q=sweden", queryPairs := [("q", "sweden")], cookie := some "cookieval" }

/-- A request whose `page` parameter does not parse as a `u32`. -/
def reqBadPage : Request :=
  { uri := "/search?q=sweden&page=abc"
    queryPairs := [("q", "sweden"), ("page", "abc")]
    cookie := none }

/-- A page-less request carrying an extra query parameter `x=1` ahead of
`q=sweden` in its raw uri. -/
def reqExtra : Request :=
  { uri := "/search?x=1&q=sweden"
    queryPairs := [("x", "1"), ("q", "sweden")]
    cookie := none }

/-- As `envMiss`, but the cache lookup fails with a different error
(an unreachable store instead of an absent key). -/
def envMiss2 : Env :=
  { envMiss with cached_results_json := fun _ => Except.error "store unreachable" }

/-- The cache key derived for the query `sweden` at effective page 1 under
`cfg0`. -/
def swedenKey : String := "http://127.0.0.1:8080/search?q=sweden&page=1"

/-!  Helper lemmas characterising the branches of the handler.  -/

/-- On a parsed request with a working cache client and a non-empty query,
a successful cache lookup makes `search` run exactly the hit branch. -/
theorem search_hit_eq (cfg : Config) (env : Env) (req : Request) (params : SearchParams)
    (query j : String)
    (h1 : parseSearchParams req.queryPairs = Except.ok params)
    (h2 : env.cacheNew = Except.ok ())
    (h3 : params.q = some query)
    (h4 : trimIsEmpty query = false)
    (hget : env.cached_results_json (pageAndUrl cfg query params.page req.uri).2 =
      Except.ok j) :
    search cfg env req =
      ((hitPath env j).1,
        [Event.cacheConnect, Event.cacheGet (pageAndUrl cfg query params.page req.uri).2] ++
          (hitPath env j).2) := by
  simp only [search, h1, h2, h3, h4, hget, Bool.false_eq_true, if_false]

/-- On a parsed request with a working cache client and a non-empty query,
a failed cache lookup makes `search` run exactly the miss branch. -/
theorem search_miss_eq (cfg : Config) (env : Env) (req : Request) (params : SearchParams)
    (query e : String)
    (h1 : parseSearchParams req.queryPairs = Except.ok params)
    (h2 : env.cacheNew = Except.ok ())
    (h3 : params.q = some query)
    (h4 : trimIsEmpty query = false)
    (hget : env.cached_results_json (pageAndUrl cfg query params.page req.uri).2 =
      Except.error e) :
    search cfg env req =
      ((missPath cfg env req.cookie query (pageAndUrl cfg query params.page req.uri).1
          (pageAndUrl cfg query params.page req.uri).2).1,
        [Event.cacheConnect, Event.cacheGet (pageAndUrl cfg query params.page req.uri).2] ++
          (missPath cfg env req.cookie query (pageAndUrl cfg query params.page req.uri).1
            (pageAndUrl cfg query params.page req.uri).2).2) := by
  simp only [search, h1, h2, h3, h4, hget, Bool.false_eq_true, if_false]

/-- The hit branch either fails before rendering with an empty trace, or
its trace is exactly one render. -/
theorem hitPath_cases (env : Env) (j : String) :
    ((hitPath env j).2 = [] ∧ (hitPath env j).1.isOk = false) ∨
    (hitPath env j).2 = [Event.render] := by
  cases hpr : env.parseResults j with
  | error e => left; simp [hitPath, hpr, Except.isOk, Except.toBool, Except.toBool]
  | ok r =>
    cases hre : env.render "search" r with
    | error e2 => right; simp [hitPath, hpr, hre]
    | ok body => right; simp [hitPath, hpr, hre]

/-- The engine-selection-plus-aggregation step yields one of three shapes:
cookie deserialization failure with no aggregator call, an aggregator call
that fails, or an aggregator call that succeeds. -/
theorem aggregateStep_shape (cfg : Config) (env : Env) (cookie : Option String)
    (query : String) (page : Nat) :
    (∃ e, aggregateStep cfg env cookie query page = (Except.error e, [])) ∨
    (∃ e es, aggregateStep cfg env cookie query page =
      (Except.error e, [Event.aggregatorCall es])) ∨
    (∃ r es, aggregateStep cfg env cookie query page =
      (Except.ok r, [Event.aggregatorCall es])) := by
  cases cookie with
  | none =>
    cases hag : env.aggregate query page cfg.random_delay cfg.debug
        cfg.upstream_search_engines with
    | error e =>
      right; left
      exact ⟨e, cfg.upstream_search_engines, by simp [aggregateStep, hag]⟩
    | ok r =>
      right; right
      exact ⟨r, cfg.upstream_search_engines, by simp [aggregateStep, hag]⟩
  | some cv =>
    cases hpc : env.parseCookie cv with
    | error e => left; exact ⟨e, by simp [aggregateStep, hpc]⟩
    | ok c =>
      cases hag : env.aggregate query page cfg.random_delay cfg.debug c.engines with
      | error e => right; left; exact ⟨e, c.engines, by simp [aggregateStep, hpc, hag]⟩
      | ok r => right; right; exact ⟨r, c.engines, by simp [aggregateStep, hpc, hag]⟩

/-- With an absent cookie the aggregator is invoked on the configured
default engine list. -/
theorem aggregateStep_none (cfg : Config) (env : Env) (query : String) (page : Nat) :
    aggregateStep cfg env none query page =
      (env.aggregate query page cfg.random_delay cfg.debug cfg.upstream_search_engines,
        [Event.aggregatorCall cfg.upstream_search_engines]) := rfl

/-- With a present, well-formed cookie the aggregator is invoked on the
cookie's engine list verbatim. -/
theorem aggregateStep_some_ok (cfg : Config) (env : Env) (cv : String) (c : Cookie)
    (query : String) (page : Nat) (h : env.parseCookie cv = Except.ok c) :
    aggregateStep cfg env (some cv) query page =
      (env.aggregate query page cfg.random_delay cfg.debug c.engines,
        [Event.aggregatorCall c.engines]) := by
  simp [aggregateStep, h]

/-- The five possible trace shapes of the miss branch, each failing one
except the last, which is the complete pipeline ending in a render. -/
theorem missPath_cases (cfg : Config) (env : Env) (cookie : Option String)
    (query : String) (page : Nat) (key : String) :
    ((missPath cfg env cookie query page key).2 = [] ∧
      (missPath cfg env cookie query page key).1.isOk = false) ∨
    (∃ es, (missPath cfg env cookie query page key).2 = [Event.aggregatorCall es] ∧
      (missPath cfg env cookie query page key).1.isOk = false) ∨
    (∃ es, (missPath cfg env cookie query page key).2 =
        [Event.aggregatorCall es, Event.enrich] ∧
      (missPath cfg env cookie query page key).1.isOk = false) ∨
    (∃ es, (missPath cfg env cookie query page key).2 =
        [Event.aggregatorCall es, Event.enrich, Event.cacheSet key] ∧
      (missPath cfg env cookie query page key).1.isOk = false) ∨
    (∃ es, (missPath cfg env cookie query page key).2 =
        [Event.aggregatorCall es, Event.enrich, Event.cacheSet key, Event.render]) := by
  rcases aggregateStep_shape cfg env cookie query page with ⟨e, hstep⟩ |
    ⟨e, es, hstep⟩ | ⟨r, es, hstep⟩
  · left
    simp [missPath, hstep, Except.isOk, Except.toBool, Except.toBool]
  · right; left
    exact ⟨es, by simp [missPath, hstep],
      by simp [missPath, hstep, Except.isOk, Except.toBool, Except.toBool]⟩
  · cases hse : env.serialize (enrichStep cfg r) with
    | error e2 =>
      right; right; left
      exact ⟨es, by simp [missPath, hstep, hse],
        by simp [missPath, hstep, hse, Except.isOk, Except.toBool, Except.toBool]⟩
    | ok s =>
      cases hcr : env.cache_results s key with
      | error e2 =>
        right; right; right; left
        exact ⟨es, by simp [missPath, hstep, hse, hcr],
          by simp [missPath, hstep, hse, hcr, Except.isOk, Except.toBool, Except.toBool]⟩
      | ok u =>
        right; right; right; right
        cases hre : env.render "search" (enrichStep cfg r) with
        | error e2 => exact ⟨es, by simp [missPath, hstep, hse, hcr, hre]⟩
        | ok body => exact ⟨es, by simp [missPath, hstep, hse, hcr, hre]⟩

/-- The miss branch is insensitive to everything of the environment except
the collaborators it invokes. -/
theorem missPath_congr (cfg : Config) (env env2 : Env) (cookie : Option String)
    (query : String) (page : Nat) (key : String)
    (hpc : env2.parseCookie = env.parseCookie)
    (hag : env2.aggregate = env.aggregate)
    (hse : env2.serialize = env.serialize)
    (hcr : env2.cache_results = env.cache_results)
    (hre : env2.render = env.render) :
    missPath cfg env2 cookie query page key = missPath cfg env cookie query page key := by
  simp only [missPath, aggregateStep, hpc, hag, hse, hcr, hre]

/-- The miss branch's trace always begins with the trace of the
engine-selection-plus-aggregation step. -/
theorem missPath_trace_prefix (cfg : Config) (env : Env) (cookie : Option String)
    (query : String) (page : Nat) (key : String) :
    ∃ rest, (missPath cfg env cookie query page key).2 =
      (aggregateStep cfg env cookie query page).2 ++ rest := by
  rcases hstep : aggregateStep cfg env cookie query page with ⟨res, tr⟩
  cases res with
  | error e => exact ⟨[], by simp [missPath, hstep]⟩
  | ok r =>
    cases hse : env.serialize (enrichStep cfg r) with
    | error e2 => exact ⟨[Event.enrich], by simp [missPath, hstep, hse]⟩
    | ok s =>
      cases hcr : env.cache_results s key with
      | error e2 =>
        exact ⟨[Event.enrich, Event.cacheSet key], by simp [missPath, hstep, hse, hcr]⟩
      | ok u =>
        cases hre : env.render "search" (enrichStep cfg r) with
        | error e2 =>
          exact ⟨[Event.enrich, Event.cacheSet key, Event.render],
            by simp [missPath, hstep, hse, hcr, hre]⟩
        | ok body =>
          exact ⟨[Event.enrich, Event.cacheSet key, Event.render],
            by simp [missPath, hstep, hse, hcr, hre]⟩

/-!  The claims.  -/

/-- Claim C1, counterexample: for the query `sweden` with no declared page
but an extra parameter `x=1` in the raw uri, the derived cache key differs
from the key derived for a declared page of exactly 1, so the claim's
absent-page case fails. -/
theorem C1_counterexample :
    (pageAndUrl cfg0 "sweden" none "/search?x=1&q=sweden").2 ≠
      (pageAndUrl cfg0 "sweden" (some 1) "/search?x=1&q=sweden").2 := by
  decide

/-- Claim C1, amended: for every declared page `p ≤ 1` the normalization
yields effective page 1 and a cache key identical to the key for a declared
page of exactly 1; for a declared page `p2 > 1` the effective page is `p2`
and the key mirrors it verbatim; for an absent page the effective page is 1
but the key embeds the full raw request uri with `&page=1` appended, rather
than the canonical `q=<query>` form. -/
theorem C1_pagination (cfg : Config) (q uri : String) (p p2 : Nat)
    (hp : p ≤ 1) (hp2 : 1 < p2) :
    pageAndUrl cfg q (some p) uri = pageAndUrl cfg q (some 1) uri ∧
    (pageAndUrl cfg q (some p) uri).1 = 1 ∧
    pageAndUrl cfg q (some p2) uri =
      (p2, "http://" ++ cfg.binding_ip_addr ++ ":" ++ toString cfg.port ++
        "/search?q=" ++ q ++ "&page=" ++ toString p2) ∧
    (pageAndUrl cfg q none uri).1 = 1 ∧
    (pageAndUrl cfg q none uri).2 =
      "http://" ++ cfg.binding_ip_addr ++ ":" ++ toString cfg.port ++
        uri ++ "&page=" ++ toString 1 := by
  refine ⟨?_, ?_, ?_, rfl, rfl⟩
  · simp [pageAndUrl, hp]
  · simp [pageAndUrl, hp]
  · simp [pageAndUrl, Nat.not_le.mpr hp2]

/-- Claim C1, witness: declared page 0 derives the same key as declared
page 1 for the query `sweden` under `cfg0`. -/
theorem C1_witness :
    pageAndUrl cfg0 "sweden" (some 0) "/search?q=sweden" =
      pageAndUrl cfg0 "sweden" (some 1) "/search?q=sweden" :=
  (C1_pagination cfg0 "sweden" "/search?q=sweden" 0 5 (by decide) (by decide)).1

/-- Claim C2, counterexample: an empty query does redirect to `/`, but its
run contains a cache-connection event, and when the cache client cannot be
constructed the empty-query request fails instead of redirecting — so the
claim's "no cache connection" and unconditional "immediately returns a
redirect" both fail. -/
theorem C2_counterexample :
    (search cfg0 envMiss reqEmptyQ).1 = Except.ok (Response.found "/") ∧
    Event.cacheConnect ∈ (search cfg0 envMiss reqEmptyQ).2 ∧
    (search cfg0 envConnFail reqEmptyQ).1 = Except.error "connection refused" := by
  decide

/-- Claim C2, amended: for every request whose parameters deserialize with
`q` missing or trimming to the empty string, provided the cache client
constructs successfully, the handler returns a redirect to `/` and its
trace is exactly the cache-client construction: no cache lookup and no
aggregator call occur, but a cache connection is made before the query is
inspected. -/
theorem C2_empty_query (cfg : Config) (env : Env) (req : Request) (params : SearchParams)
    (h1 : parseSearchParams req.queryPairs = Except.ok params)
    (h2 : env.cacheNew = Except.ok ())
    (hq : params.q = none ∨ ∃ q, params.q = some q ∧ trimIsEmpty q = true) :
    search cfg env req = (Except.ok (Response.found "/"), [Event.cacheConnect]) := by
  rcases hq with hq | ⟨q, hq, hqe⟩
  · simp [search, h1, h2, hq]
  · simp [search, h1, h2, hq, hqe]

/-- Claim C2, witness: the empty-string query under `cfg0` with a working
cache client redirects with exactly one cache-connection in its trace. -/
theorem C2_witness :
    search cfg0 envMiss reqEmptyQ =
      (Except.ok (Response.found "/"), [Event.cacheConnect]) :=
  C2_empty_query cfg0 envMiss reqEmptyQ { q := some "", page := none }
    (by decide) (by decide) (Or.inr ⟨"", rfl, by decide⟩)

/-- Claim C9: a request whose `page` parameter does not parse as a `u32`
fails during parameter deserialization, with an empty trace: no cache
connection, no cache lookup and no aggregator call ever happen, so the
malformed page is not treated as absent. -/
theorem C9_malformed_page (cfg : Config) (env : Env) (req : Request) (s : String)
    (hp : List.lookup "page" req.queryPairs = some s)
    (hbad : parseU32 s = none) :
    (∃ e, (search cfg env req).1 = Except.error e) ∧ (search cfg env req).2 = [] := by
  have hps : parseSearchParams req.queryPairs = Except.error "invalid page parameter" := by
    simp [parseSearchParams, hp, hbad]
  exact ⟨⟨"invalid page parameter", by simp [search, hps]⟩, by simp [search, hps]⟩

/-- Claim C9, witness: the request with `page=abc` produces an empty trace
under `cfg0` and a fully working environment. -/
theorem C9_witness : (search cfg0 envMiss reqBadPage).2 = [] :=
  (C9_malformed_page cfg0 envMiss reqBadPage "abc" (by decide) (by decide)).2

/-- Claim C10: with a declared page the derived cache key depends only on
the configured binding address, the configured port, the query and the
effective page, in the format
`http://<ip>:<port>/search?q=<query>&page=<n>` — in particular it is
independent of the raw request uri, so requests differing only in extra
parameters share one key — whereas with no declared page the key embeds the
full raw uri. -/
theorem C10_key_dependency (cfg : Config) (q uri uri2 : String) (p : Nat) :
    pageAndUrl cfg q (some p) uri = pageAndUrl cfg q (some p) uri2 ∧
    (pageAndUrl cfg q (some p) uri).2 =
      "http://" ++ cfg.binding_ip_addr ++ ":" ++ toString cfg.port ++
        "/search?q=" ++ q ++ "&page=" ++ toString (pageAndUrl cfg q (some p) uri).1 ∧
    (pageAndUrl cfg q none uri).2 =
      "http://" ++ cfg.binding_ip_addr ++ ":" ++ toString cfg.port ++
        uri ++ "&page=" ++ toString 1 := by
  refine ⟨?_, ?_, rfl⟩ <;> by_cases hp : p ≤ 1 <;> simp [pageAndUrl, hp]

/-- Claim C3: for every non-empty query exactly one of the cache-hit and
cache-miss branches executes — on a hit none of the miss-path effects
(aggregation, enrichment, cache write) occurs — on a miss, absent any
fatal error, the cache write on the derived key happens before the render;
and re-running the identical request against a now-warm cache takes the
hit path and never invokes the aggregator again. -/
theorem C3_paths (cfg : Config) (env env2 : Env) (req : Request)
    (params : SearchParams) (query key v : String)
    (h1 : parseSearchParams req.queryPairs = Except.ok params)
    (h2 : env.cacheNew = Except.ok ())
    (h3 : params.q = some query)
    (h4 : trimIsEmpty query = false)
    (hkey : key = (pageAndUrl cfg query params.page req.uri).2) :
    ((env.cached_results_json key).isOk = true →
      Event.enrich ∉ (search cfg env req).2 ∧
      (∀ es, Event.aggregatorCall es ∉ (search cfg env req).2) ∧
      (∀ k, Event.cacheSet k ∉ (search cfg env req).2)) ∧
    ((env.cached_results_json key).isOk = false →
      (search cfg env req).1.isOk = true →
      ∃ es, (search cfg env req).2 =
        [Event.cacheConnect, Event.cacheGet key, Event.aggregatorCall es,
          Event.enrich, Event.cacheSet key, Event.render]) ∧
    (env2.cacheNew = Except.ok () → env2.cached_results_json key = Except.ok v →
      ∀ es, Event.aggregatorCall es ∉ (search cfg env2 req).2) := by
  subst hkey
  refine ⟨?_, ?_, ?_⟩
  · intro hok
    cases hget : env.cached_results_json (pageAndUrl cfg query params.page req.uri).2 with
    | error e => rw [hget] at hok; simp [Except.isOk, Except.toBool] at hok
    | ok j =>
      rw [search_hit_eq cfg env req params query j h1 h2 h3 h4 hget]
      rcases hitPath_cases env j with ⟨htr, _⟩ | htr <;>
        exact ⟨by simp [htr], fun es => by simp [htr], fun k => by simp [htr]⟩
  · intro hok hres
    cases hget : env.cached_results_json (pageAndUrl cfg query params.page req.uri).2 with
    | ok j => rw [hget] at hok; simp [Except.isOk, Except.toBool] at hok
    | error e =>
      have heq := search_miss_eq cfg env req params query e h1 h2 h3 h4 hget
      rw [heq] at hres ⊢
      rcases missPath_cases cfg env req.cookie query
          (pageAndUrl cfg query params.page req.uri).1
          (pageAndUrl cfg query params.page req.uri).2 with
        ⟨htr, hko⟩ | ⟨es, htr, hko⟩ | ⟨es, htr, hko⟩ | ⟨es, htr, hko⟩ | ⟨es, htr⟩
      · simp [hko] at hres
      · simp [hko] at hres
      · simp [hko] at hres
      · simp [hko] at hres
      · exact ⟨es, by simp [htr]⟩
  · intro h2b hget2 es
    rw [search_hit_eq cfg env2 req params query v h1 h2b h3 h4 hget2]
    rcases hitPath_cases env2 v with ⟨htr, _⟩ | htr <;> simp [htr]

/-- Claim C3, witness: under `cfg0` with a warm cache at the `sweden` key,
the run of the handler contains no enrichment event. -/
theorem C3_witness : Event.enrich ∉ (search cfg0 envHit reqSweden).2 :=
  ((C3_paths cfg0 envHit envHit reqSweden { q := some "sweden", page := none }
      "sweden" swedenKey "cachedjson" (by decide) (by decide) rfl (by decide)
      (by decide)).1 (by decide)).1

/-- Claim C4: a failed cache lookup — whatever its error — makes the
handler run exactly the miss branch, and two environments that differ only
in the error value returned by the lookup (one absence, one connectivity
failure) produce identical runs, so the lookup failure is treated
uniformly as a miss and never surfaced as the request's error. -/
theorem C4_uniform_miss (cfg : Config) (env env2 : Env) (req : Request)
    (params : SearchParams) (query key e e2 : String)
    (h1 : parseSearchParams req.queryPairs = Except.ok params)
    (h2 : env.cacheNew = Except.ok ())
    (h3 : params.q = some query)
    (h4 : trimIsEmpty query = false)
    (hkey : key = (pageAndUrl cfg query params.page req.uri).2)
    (hget : env.cached_results_json key = Except.error e)
    (hnew : env2.cacheNew = env.cacheNew)
    (_hpr : env2.parseResults = env.parseResults)
    (hpc : env2.parseCookie = env.parseCookie)
    (hag : env2.aggregate = env.aggregate)
    (hse : env2.serialize = env.serialize)
    (hcr : env2.cache_results = env.cache_results)
    (hre : env2.render = env.render)
    (hget2 : env2.cached_results_json key = Except.error e2) :
    search cfg env req =
      ((missPath cfg env req.cookie query (pageAndUrl cfg query params.page req.uri).1
          key).1,
        [Event.cacheConnect, Event.cacheGet key] ++
          (missPath cfg env req.cookie query (pageAndUrl cfg query params.page req.uri).1
            key).2) ∧
    search cfg env2 req = search cfg env req := by
  subst hkey
  have heq := search_miss_eq cfg env req params query e h1 h2 h3 h4 hget
  have h2b : env2.cacheNew = Except.ok () := by rw [hnew, h2]
  have heq2 := search_miss_eq cfg env2 req params query e2 h1 h2b h3 h4 hget2
  refine ⟨heq, ?_⟩
  rw [heq, heq2,
    missPath_congr cfg env env2 req.cookie query
      (pageAndUrl cfg query params.page req.uri).1
      (pageAndUrl cfg query params.page req.uri).2 hpc hag hse hcr hre]

/-- Claim C4, witness: the environment whose lookup reports an absent key
and the one whose lookup reports an unreachable store produce identical
runs for the `sweden` request under `cfg0`. -/
theorem C4_witness : search cfg0 envMiss2 reqSweden = search cfg0 envMiss reqSweden :=
  (C4_uniform_miss cfg0 envMiss envMiss2 reqSweden { q := some "sweden", page := none }
      "sweden" swedenKey "not found" "store unreachable" (by decide) (by decide) rfl
      (by decide) (by decide) (by decide) rfl rfl rfl rfl rfl rfl rfl (by decide)).2

/-- Claim C5: on a cache miss in which aggregation, enrichment and
serialization succeed, a failure of the cache write makes the whole
request fail with exactly that error, and no render is ever attempted. -/
theorem C5_set_failure (cfg : Config) (env : Env) (req : Request)
    (params : SearchParams) (query key e e2 s : String) (r : SearchResults)
    (tr : List Event)
    (h1 : parseSearchParams req.queryPairs = Except.ok params)
    (h2 : env.cacheNew = Except.ok ())
    (h3 : params.q = some query)
    (h4 : trimIsEmpty query = false)
    (hkey : key = (pageAndUrl cfg query params.page req.uri).2)
    (hget : env.cached_results_json key = Except.error e)
    (hagg : aggregateStep cfg env req.cookie query
      (pageAndUrl cfg query params.page req.uri).1 = (Except.ok r, tr))
    (hser : env.serialize (enrichStep cfg r) = Except.ok s)
    (hset : env.cache_results s key = Except.error e2) :
    (search cfg env req).1 = Except.error e2 ∧
    Event.render ∉ (search cfg env req).2 := by
  subst hkey
  have heq := search_miss_eq cfg env req params query e h1 h2 h3 h4 hget
  rw [heq]
  have htr : ∃ es, tr = [Event.aggregatorCall es] := by
    rcases aggregateStep_shape cfg env req.cookie query
        (pageAndUrl cfg query params.page req.uri).1 with
      ⟨e3, hs⟩ | ⟨e3, es, hs⟩ | ⟨r2, es, hs⟩ <;> rw [hs] at hagg
    · simp at hagg
    · simp at hagg
    · exact ⟨es, by injection hagg with ha hb; exact hb.symm⟩
  rcases htr with ⟨es, htr⟩
  have hmp : missPath cfg env req.cookie query
      (pageAndUrl cfg query params.page req.uri).1
      (pageAndUrl cfg query params.page req.uri).2 =
      (Except.error e2, tr ++ [Event.enrich,
        Event.cacheSet (pageAndUrl cfg query params.page req.uri).2]) := by
    simp [missPath, hagg, hser, hset]
  rw [hmp]
  exact ⟨rfl, by simp [htr]⟩

/-- Claim C5, witness: the environment whose cache write fails turns the
fully successful `sweden` aggregation into a failed request. -/
theorem C5_witness : (search cfg0 envSetFail reqSweden).1 = Except.error "set failed" :=
  (C5_set_failure cfg0 envSetFail reqSweden { q := some "sweden", page := none }
      "sweden" swedenKey "not found" "set failed" "serialized" okResults
      [Event.aggregatorCall ["engineA", "engineB"]] (by decide) (by decide) rfl
      (by decide) (by decide) (by decide) (by decide) (by decide) (by decide)).1

/-- Claim C6: on a cache miss, a present `appCookie` whose value does not
deserialize as the structured payload makes the request fail with exactly
the deserialization error, and the aggregator is never invoked — there is
no silent fallback to the configured default engine list. -/
theorem C6_cookie_failure (cfg : Config) (env : Env) (req : Request)
    (params : SearchParams) (query key cv e ce : String)
    (h1 : parseSearchParams req.queryPairs = Except.ok params)
    (h2 : env.cacheNew = Except.ok ())
    (h3 : params.q = some query)
    (h4 : trimIsEmpty query = false)
    (hkey : key = (pageAndUrl cfg query params.page req.uri).2)
    (hget : env.cached_results_json key = Except.error e)
    (hcv : req.cookie = some cv)
    (hpc : env.parseCookie cv = Except.error ce) :
    (search cfg env req).1 = Except.error ce ∧
    ∀ es, Event.aggregatorCall es ∉ (search cfg env req).2 := by
  subst hkey
  have heq := search_miss_eq cfg env req params query e h1 h2 h3 h4 hget
  rw [heq]
  have hmp : missPath cfg env req.cookie query
      (pageAndUrl cfg query params.page req.uri).1
      (pageAndUrl cfg query params.page req.uri).2 = (Except.error ce, []) := by
    simp [missPath, aggregateStep, hcv, hpc]
  rw [hmp]
  exact ⟨rfl, fun es => by simp⟩

/-- Claim C6, witness: a malformed cookie on the `sweden` request fails the
request with the deserialization error under `cfg0`. -/
theorem C6_witness :
    (search cfg0 envBadCookie reqSwedenCookie).1 = Except.error "malformed cookie" :=
  (C6_cookie_failure cfg0 envBadCookie reqSwedenCookie
      { q := some "sweden", page := none } "sweden" swedenKey "cookieval"
      "not found" "malformed cookie" (by decide) (by decide) rfl (by decide)
      (by decide) (by decide) rfl (by decide)).1

/-- Claim C7, counterexample: a well-formed cookie whose `engines` list is
empty hands the empty engine set to the aggregator on a cache miss, and the
request still succeeds — the engine set passed to the aggregator is not
always non-empty. -/
theorem C7_counterexample :
    Event.aggregatorCall [] ∈ (search cfg0 envEmptyEngines reqSwedenCookie).2 ∧
    (search cfg0 envEmptyEngines reqSwedenCookie).1.isOk = true := by
  decide

/-- Claim C7, amended: on a cache miss the engine list handed to the
aggregator is the configured default list verbatim when no cookie is
present, and the cookie's `engines` list verbatim when a well-formed cookie
is present — with no non-emptiness guarantee in the cookie case. -/
theorem C7_engine_selection (cfg : Config) (env : Env) (req : Request)
    (params : SearchParams) (query key e : String)
    (h1 : parseSearchParams req.queryPairs = Except.ok params)
    (h2 : env.cacheNew = Except.ok ())
    (h3 : params.q = some query)
    (h4 : trimIsEmpty query = false)
    (hkey : key = (pageAndUrl cfg query params.page req.uri).2)
    (hget : env.cached_results_json key = Except.error e) :
    (req.cookie = none →
      Event.aggregatorCall cfg.upstream_search_engines ∈ (search cfg env req).2) ∧
    (∀ cv c, req.cookie = some cv → env.parseCookie cv = Except.ok c →
      Event.aggregatorCall c.engines ∈ (search cfg env req).2) := by
  subst hkey
  have heq := search_miss_eq cfg env req params query e h1 h2 h3 h4 hget
  rw [heq]
  constructor
  · intro hcv
    rw [hcv]
    rcases missPath_trace_prefix cfg env none query
        (pageAndUrl cfg query params.page req.uri).1
        (pageAndUrl cfg query params.page req.uri).2 with ⟨rest, hpre⟩
    rw [aggregateStep_none] at hpre
    rw [hpre]
    simp
  · intro cv c hcv hpc
    rw [hcv]
    rcases missPath_trace_prefix cfg env (some cv) query
        (pageAndUrl cfg query params.page req.uri).1
        (pageAndUrl cfg query params.page req.uri).2 with ⟨rest, hpre⟩
    rw [aggregateStep_some_ok cfg env cv c query
        (pageAndUrl cfg query params.page req.uri).1 hpc] at hpre
    rw [hpre]
    simp

/-- Claim C7, witness: the cookie-less `sweden` request under `cfg0` hands
the configured default engine list to the aggregator. -/
theorem C7_witness :
    Event.aggregatorCall cfg0.upstream_search_engines ∈ (search cfg0 envMiss reqSweden).2 :=
  (C7_engine_selection cfg0 envMiss reqSweden { q := some "sweden", page := none }
      "sweden" swedenKey "not found" (by decide) (by decide) rfl (by decide)
      (by decide) (by decide)).1 rfl

/-- Claim C8: on a cache hit the cached payload is deserialized and
rendered as-is — no enrichment event occurs and the rendered body is the
renderer's output on the deserialized value itself — while on a cache miss
the enrichment runs at most once, and exactly once whenever the request
succeeds. -/
theorem C8_enrichment (cfg : Config) (env : Env) (req : Request)
    (params : SearchParams) (query key : String)
    (h1 : parseSearchParams req.queryPairs = Except.ok params)
    (h2 : env.cacheNew = Except.ok ())
    (h3 : params.q = some query)
    (h4 : trimIsEmpty query = false)
    (hkey : key = (pageAndUrl cfg query params.page req.uri).2) :
    (∀ j, env.cached_results_json key = Except.ok j →
      Event.enrich ∉ (search cfg env req).2 ∧
      ∀ r body, env.parseResults j = Except.ok r →
        env.render "search" r = Except.ok body →
        (search cfg env req).1 = Except.ok (Response.okBody body)) ∧
    (∀ e, env.cached_results_json key = Except.error e →
      List.countP isEnrich (search cfg env req).2 ≤ 1 ∧
      ((search cfg env req).1.isOk = true →
        List.countP isEnrich (search cfg env req).2 = 1)) := by
  subst hkey
  constructor
  · intro j hget
    have heq := search_hit_eq cfg env req params query j h1 h2 h3 h4 hget
    rw [heq]
    constructor
    · rcases hitPath_cases env j with ⟨htr, _⟩ | htr <;> simp [htr]
    · intro r body hpr hre
      simp [hitPath, hpr, hre]
  · intro e hget
    have heq := search_miss_eq cfg env req params query e h1 h2 h3 h4 hget
    rw [heq]
    rcases missPath_cases cfg env req.cookie query
        (pageAndUrl cfg query params.page req.uri).1
        (pageAndUrl cfg query params.page req.uri).2 with
      ⟨htr, hko⟩ | ⟨es, htr, hko⟩ | ⟨es, htr, hko⟩ | ⟨es, htr, hko⟩ | ⟨es, htr⟩
    · exact ⟨by simp [htr, List.countP_append, List.countP_cons, isEnrich],
        fun h => absurd h (by simp [hko])⟩
    · exact ⟨by simp [htr, List.countP_append, List.countP_cons, isEnrich],
        fun h => absurd h (by simp [hko])⟩
    · exact ⟨by simp [htr, List.countP_append, List.countP_cons, isEnrich],
        fun h => absurd h (by simp [hko])⟩
    · exact ⟨by simp [htr, List.countP_append, List.countP_cons, isEnrich],
        fun h => absurd h (by simp [hko])⟩
    · exact ⟨by simp [htr, List.countP_append, List.countP_cons, isEnrich],
        fun _ => by simp [htr, List.countP_append, List.countP_cons, isEnrich]⟩

/-- Claim C8, witness: the cold-cache `sweden` request under `cfg0` runs
the enrichment exactly once. -/
theorem C8_witness : List.countP isEnrich (search cfg0 envMiss reqSweden).2 = 1 :=
  ((C8_enrichment cfg0 envMiss reqSweden { q := some "sweden", page := none }
      "sweden" swedenKey (by decide) (by decide) rfl (by decide) (by decide)).2
    "not found" (by decide)).2 (by decide)

end Websurfx
